import Mathlib

/-!
Shallow embedding of the MMM-Facial-Recognition python script
(src/MMM-Facial-Recognition.py): the presence/sleep state machine of the
main loop, the camera backend selection, the capture retry loop, the
consecutive-failure counter and the two camera teardown paths.
Timestamps are modelled as rationals; the external face-recognition
library is abstracted into a per-tick observation.
-/

namespace MMMFR

/-- Configured constant SLEEP_TIMEOUT = 300 (seconds). -/
def SLEEP_TIMEOUT : ℚ := 300

/-- Configured constant RECOGNITION_HOLD_TIME = 15 (seconds). -/
def RECOGNITION_HOLD_TIME : ℚ := 15

/-- Configured constant WAKE_CONFIRMATION_TIME = 5 (seconds). -/
def WAKE_CONFIRMATION_TIME : ℚ := 5

/-- Configured constant CAMERA_FAILURE_THRESHOLD = 5. -/
def CAMERA_FAILURE_THRESHOLD : ℕ := 5

/-- Per-process constants captured by the build_status closure:
the loaded profile names and the active camera backend tag. -/
structure Ctx where
  profileNames : List String
  cameraType : String
deriving DecidableEq

/-- The status snapshot written to status.json (build_status, lines 242-254).
The timestamp field is modelled as the tick time. -/
structure Status where
  user : Option String
  isKnown : Bool
  sleeping : Bool
  timestamp : ℚ
  timeSinceFace : ℚ
  profileCount : ℕ
  profileNames : List String
  sleepTimeoutSecs : ℚ
  cameraType : String
deriving DecidableEq

/-- build_status (lines 242-254). -/
def build_status (ctx : Ctx) (now : ℚ) (user : Option String) (is_known : Bool)
    (sleeping : Bool) (time_since_face : ℚ) : Status :=
  { user := user, isKnown := is_known, sleeping := sleeping, timestamp := now,
    timeSinceFace := time_since_face, profileCount := ctx.profileNames.length,
    profileNames := ctx.profileNames, sleepTimeoutSecs := SLEEP_TIMEOUT,
    cameraType := ctx.cameraType }

/-- The mutable state of the main loop that the presence state machine
reads and writes (lines 228-232).  The failure counter is modelled
separately (update_failures) since it is driven by capture, not by the
observation. -/
structure PState where
  last_face_seen : ℚ
  current_user : Option String
  is_sleeping : Bool
  last_recognition_time : ℚ
  last_wake_time : ℚ
deriving DecidableEq

/-- The initial loop state: last_face_seen = time.time() at startup,
no user, awake, both other timers 0 (lines 228-232). -/
def init_state (now : ℚ) : PState :=
  { last_face_seen := now, current_user := none, is_sleeping := false,
    last_recognition_time := 0, last_wake_time := 0 }

/-- The per-tick observation delivered by recognize_face: either no face
(face_detected false, which includes the frame-is-None case) or a detected
face carrying the recognized name.  An unrecognized face yields the
literal name Guest in the source (recognize_face, lines 177-205). -/
inductive Recog where
  | noFace : Recog
  | face : String → Recog
deriving DecidableEq

/-- Python truthiness of the expression
current_user or Guest-literal (line 350): None and the empty string are
both falsy and give the Guest literal. -/
def pyOrGuest : Option String → String
  | none => "Guest"
  | some u => if u = "" then "Guest" else u

/-- The face_detected branch of the main loop (lines 288-328).
last_face_seen is set to now and time_since_face to 0 (lines 289-290)
before the wake / confirmation-window / normal-operation cascade. -/
def tick_face (ctx : Ctx) (s : PState) (now : ℚ) (recognized_name : String) :
    PState × Option Status :=
  if s.is_sleeping then
    ({ last_face_seen := now, current_user := some recognized_name,
       is_sleeping := false, last_recognition_time := now, last_wake_time := now },
     some (build_status ctx now (some recognized_name)
       (recognized_name != "Guest") false 0))
  else if now - s.last_wake_time < WAKE_CONFIRMATION_TIME then
    (if some recognized_name ≠ s.current_user then
       { s with
         last_face_seen := now,
         current_user := some recognized_name,
         last_recognition_time := now }
     else { s with last_face_seen := now },
     some (build_status ctx now (some recognized_name)
       (recognized_name != "Guest") false 0))
  else if some recognized_name ≠ s.current_user ∨
      now - s.last_recognition_time > RECOGNITION_HOLD_TIME then
    ({ s with
       last_face_seen := now,
       current_user := some recognized_name,
       last_recognition_time := now },
     some (build_status ctx now (some recognized_name)
       (recognized_name != "Guest") false 0))
  else
    ({ s with last_face_seen := now }, none)

/-- The no-face branch of the main loop (lines 330-354): possibly enter
sleep, then always write a status (sleeping or awake variant). -/
def tick_noface (ctx : Ctx) (s : PState) (now : ℚ) : PState × Option Status :=
  let time_since_face := now - s.last_face_seen
  let s1 : PState :=
    if time_since_face ≥ SLEEP_TIMEOUT ∧ s.is_sleeping = false then
      { s with is_sleeping := true, current_user := none }
    else s
  if s1.is_sleeping then
    (s1, some (build_status ctx now none false true time_since_face))
  else
    (s1, some (build_status ctx now (some (pyOrGuest s1.current_user))
      (s1.current_user.isSome && (s1.current_user != some "Guest"))
      false time_since_face))

/-- One tick of the presence state machine (lines 261-354), given the
observation produced by recognize_face on this tick's frame.  Returns the
new state and the status snapshot written this tick, if any. -/
def tick (ctx : Ctx) (s : PState) (now : ℚ) : Recog → PState × Option Status
  | Recog.noFace => tick_noface ctx s now
  | Recog.face n => tick_face ctx s now n

/-- The initial status written before the loop starts (line 257). -/
def initial_status (ctx : Ctx) (now : ℚ) : Status :=
  build_status ctx now (some "Guest") false false 0

example :
    (tick ⟨["Tony"], "picamera2"⟩ (init_state 1000) 1001 (Recog.face "Tony")).1.current_user
      = some "Tony" := by
  norm_num [tick, tick_face, init_state, WAKE_CONFIRMATION_TIME, RECOGNITION_HOLD_TIME]

example :
    (tick ⟨["Tony"], "picamera2"⟩ (init_state 1000) 1400 Recog.noFace).1.is_sleeping
      = true := by
  norm_num [tick, tick_noface, init_state, SLEEP_TIMEOUT]

/-- The consecutive-capture-failure tracking of the main loop
(lines 268-283): on a missing frame the counter is incremented and, when
it reaches CAMERA_FAILURE_THRESHOLD, recovery is attempted and the
counter reset; on a present frame the counter is reset.  Returns the new
counter and whether a recovery attempt was triggered this tick. -/
def update_failures (consecutive_failures : ℕ) (frame_present : Bool) : ℕ × Bool :=
  if frame_present then (0, false)
  else
    let cf := consecutive_failures + 1
    if cf ≥ CAMERA_FAILURE_THRESHOLD then (0, true) else (cf, false)

/-- Trace of n consecutive all-failing ticks starting from a zero
counter: final counter value and number of recovery attempts triggered. -/
def simulate_failures : ℕ → ℕ × ℕ
  | 0 => (0, 0)
  | n + 1 =>
    let p := simulate_failures n
    let q := update_failures p.1 false
    (q.1, p.2 + (if q.2 then 1 else 0))

/-- Outcome of trying one camera backend: the module is not importable
(ImportError branch), it is present but raises during setup (generic
except branch), or it opens successfully. -/
inductive BackendOutcome where
  | absent : BackendOutcome
  | initFails : BackendOutcome
  | ok : BackendOutcome
deriving DecidableEq

/-- The ordered candidate list tried by the camera open routine. -/
def camera_backends : List String := ["picamera2", "picamera", "opencv"]

/-- Camera open (lines 71-112): try picamera2, then legacy picamera,
then OpenCV; an ImportError and a setup exception both fall through to
the next candidate (the two except clauses differ only in log text);
return the first backend that opens, or none when all fail (the OpenCV
isOpened-false path raises and is caught by the same except). -/
def open_camera (o : String → BackendOutcome) : Option String :=
  if o "picamera2" = BackendOutcome.ok then some "picamera2"
  else if o "picamera" = BackendOutcome.ok then some "picamera"
  else if o "opencv" = BackendOutcome.ok then some "opencv"
  else none

/-- Startup camera check (lines 214-217): when open returns no camera the
process calls sys.exit 1; otherwise it continues.  Returns the exit code
when the process terminates at startup. -/
def startup_exit_code (o : String → BackendOutcome) : Option ℕ :=
  match open_camera o with
  | none => some 1
  | some _ => none

/-- The independent cleanup actions a backend teardown may perform. -/
inductive Step where
  | stop : Step
  | close : Step
  | release : Step
deriving DecidableEq

/-- The teardown performed inside reinitialize_camera (lines 151-169):
each applicable step is wrapped in its own try/except, so the set of
attempted steps does not depend on which steps raise. -/
def reinit_teardown (kind : String) (raises : Step → Bool) : List Step :=
  if kind = "picamera2" then [Step.stop, Step.close]
  else if kind = "picamera" then [Step.close]
  else if kind = "opencv" then [Step.release]
  else []

/-- The teardown performed in the shutdown finally block (lines 362-371):
the steps are invoked bare, so for picamera2 a raising stop propagates
and close is never attempted. -/
def shutdown_teardown (kind : String) (raises : Step → Bool) : List Step :=
  if kind = "picamera2" then
    if raises Step.stop then [Step.stop] else [Step.stop, Step.close]
  else if kind = "picamera" then [Step.close]
  else if kind = "opencv" then [Step.release]
  else []

/-- Oracle under which the stop step raises and the others succeed. -/
def raisesStop : Step → Bool
  | Step.stop => true
  | _ => false

/-- Result of one backend frame read inside capture_frame: a usable
frame, a non-raising read with no usable data (picamera2 empty frame,
OpenCV ret false), or a raised exception. -/
inductive ReadResult where
  | ok : ReadResult
  | noData : ReadResult
  | exn : ReadResult
deriving DecidableEq

/-- The body of capture_frame's for-loop (lines 117-141) over the
remaining attempt indices.  Returns the index of the successful attempt
(or none), the number of attempts executed, and the number of 0.1s
pauses slept: a pause happens only in the except branch and only when
the raising attempt is not the last one. -/
def capture_go (read : ℕ → ReadResult) (retries : ℕ) : List ℕ → Option ℕ × ℕ × ℕ
  | [] => (none, 0, 0)
  | a :: rest =>
    match read a with
    | ReadResult.ok => (some a, 1, 0)
    | ReadResult.noData =>
      let p := capture_go read retries rest
      (p.1, p.2.1 + 1, p.2.2)
    | ReadResult.exn =>
      let p := capture_go read retries rest
      (p.1, p.2.1 + 1, p.2.2 + (if a = retries then 0 else 1))

/-- capture_frame (lines 115-142): iterate the read over attempt indices
range (retries + 1); return None when no attempt yields a frame. -/
def capture_frame (read : ℕ → ReadResult) (retries : ℕ) : Option ℕ × ℕ × ℕ :=
  capture_go read retries (List.range (retries + 1))

/-- A concrete context used by concrete instances below: one loaded
profile named Tony, picamera2 backend. -/
def ctx0 : Ctx := { profileNames := ["Tony"], cameraType := "picamera2" }

/-- A concrete sleeping state. -/
def asleepState : PState :=
  { last_face_seen := 100, current_user := none, is_sleeping := true,
    last_recognition_time := 50, last_wake_time := 40 }

/-- A concrete awake state holding the identity Tony, identity set at
time 100, outside the wake-confirmation window. -/
def tonyState : PState :=
  { last_face_seen := 100, current_user := some "Tony", is_sleeping := false,
    last_recognition_time := 100, last_wake_time := 0 }

/-- C1: while Asleep, a FaceDetected observation transitions the machine
to Awake on that same tick: currentIdentity becomes the detected id,
lastFaceSeenAt, lastIdentityChangeAt and lastWakeAt are all set to now,
and a status snapshot with sleeping false and user equal to that id is
written on this very tick. -/
theorem wake_on_face_immediate (ctx : Ctx) (s : PState) (now : ℚ) (name : String)
    (h : s.is_sleeping = true) :
    (tick ctx s now (Recog.face name)).1 =
      { last_face_seen := now, current_user := some name, is_sleeping := false,
        last_recognition_time := now, last_wake_time := now } ∧
    (tick ctx s now (Recog.face name)).2 =
      some { user := some name, isKnown := name != "Guest", sleeping := false,
             timestamp := now, timeSinceFace := 0,
             profileCount := ctx.profileNames.length,
             profileNames := ctx.profileNames, sleepTimeoutSecs := SLEEP_TIMEOUT,
             cameraType := ctx.cameraType } := by
  constructor <;> simp [tick, tick_face, build_status, h]

/-- Witness for C1 at a concrete sleeping state. -/
theorem wake_on_face_immediate_witness :
    (tick ctx0 asleepState 1000 (Recog.face "Tony")).1.current_user = some "Tony" ∧
    (tick ctx0 asleepState 1000 (Recog.face "Tony")).1.is_sleeping = false := by
  have h := wake_on_face_immediate ctx0 asleepState 1000 "Tony" rfl
  rw [h.1]
  exact ⟨rfl, rfl⟩

/-- C5 counterexample: with a stop step that raises on the picamera2
backend, the reinitialize teardown still attempts close but the
shutdown teardown does not, so not every teardown attempts every
independent cleanup step. -/
theorem shutdown_skips_close_counterexample :
    Step.close ∈ reinit_teardown "picamera2" raisesStop ∧
    Step.close ∉ shutdown_teardown "picamera2" raisesStop := by decide

/-- C5 amended: the reinitialize teardown attempts every applicable
cleanup step of the backend kind no matter which steps raise, while the
shutdown teardown attempts close for picamera2 exactly when stop does
not raise. -/
theorem teardown_step_discipline :
    (∀ raises, reinit_teardown "picamera2" raises = [Step.stop, Step.close]) ∧
    (∀ raises, reinit_teardown "picamera" raises = [Step.close]) ∧
    (∀ raises, reinit_teardown "opencv" raises = [Step.release]) ∧
    (∀ raises, Step.close ∈ shutdown_teardown "picamera2" raises ↔
      raises Step.stop = false) := by
  refine ⟨fun r => rfl, fun r => rfl, fun r => rfl, fun r => ?_⟩
  cases h : r Step.stop <;> simp [shutdown_teardown, h]

/-- C6: the consecutive-capture-failure counter resets to zero on any
successful capture; on a failed tick it increments and triggers a
recovery attempt exactly when the threshold of 5 is reached, resetting
the counter at the same time, so a run of n consecutive failing ticks
from a zero counter triggers exactly n / 5 recovery attempts (one per
threshold crossing). -/
theorem failure_counter_reset_and_trigger :
    (∀ cf, update_failures cf true = (0, false)) ∧
    (∀ cf, update_failures cf false =
      if cf + 1 ≥ CAMERA_FAILURE_THRESHOLD then (0, true) else (cf + 1, false)) ∧
    (∀ n, simulate_failures n =
      (n % CAMERA_FAILURE_THRESHOLD, n / CAMERA_FAILURE_THRESHOLD)) := by
  refine ⟨fun cf => rfl, fun cf => rfl, fun n => ?_⟩
  induction n with
  | zero => rfl
  | succ n ih =>
    rw [simulate_failures, ih]
    simp only [update_failures, CAMERA_FAILURE_THRESHOLD, Bool.false_eq_true,
      if_false]
    by_cases h : n % 5 + 1 ≥ 5
    · have h1 : (n + 1) % 5 = 0 := by omega
      have h2 : (n + 1) / 5 = n / 5 + 1 := by omega
      simp [h, h1, h2]
    · have h1 : (n + 1) % 5 = n % 5 + 1 := by omega
      have h2 : (n + 1) / 5 = n / 5 := by omega
      simp [h, h1, h2]

/-- C7: camera open returns the first backend of the ordered candidate
list whose outcome is ok; an absent backend and a present one whose
setup raises are both skipped identically (only the ok outcome is
inspected); when every backend fails the process terminates at startup
with exit code 1, which is non-zero. -/
theorem camera_open_first_success :
    (∀ o, open_camera o =
      camera_backends.find? (fun b => decide (o b = BackendOutcome.ok))) ∧
    (∀ o, (∀ b, o b ≠ BackendOutcome.ok) →
      startup_exit_code o = some 1 ∧ (1 : ℕ) ≠ 0) := by
  constructor
  · intro o
    by_cases h1 : o "picamera2" = BackendOutcome.ok <;>
      by_cases h2 : o "picamera" = BackendOutcome.ok <;>
        by_cases h3 : o "opencv" = BackendOutcome.ok <;>
          simp [open_camera, camera_backends, List.find?, h1, h2, h3]
  · intro o h
    exact ⟨by simp [startup_exit_code, open_camera,
      h "picamera2", h "picamera", h "opencv"], by decide⟩

/-- Witness for C7: no backend available at all leads to exit code 1. -/
theorem camera_open_first_success_witness :
    startup_exit_code (fun _ => BackendOutcome.absent) = some 1 ∧ (1 : ℕ) ≠ 0 :=
  camera_open_first_success.2 (fun _ => BackendOutcome.absent)
    (fun b hb => BackendOutcome.noConfusion hb)

/-- Attempts executed by the capture loop never exceed the length of the
remaining index list. -/
theorem capture_go_attempts_le (read : ℕ → ReadResult) (retries : ℕ) (l : List ℕ) :
    (capture_go read retries l).2.1 ≤ l.length := by
  induction l with
  | nil => simp [capture_go]
  | cons a rest ih =>
    cases h : read a with
    | ok => simp [capture_go, h]
    | noData =>
      simp only [capture_go, h, List.length_cons]
      omega
    | exn =>
      simp only [capture_go, h, List.length_cons]
      omega

/-- When no listed attempt succeeds, the capture loop runs every
attempt, returns no frame, and pauses exactly after the raising
attempts that are not the final one. -/
theorem capture_go_all_fail (read : ℕ → ReadResult) (retries : ℕ) (l : List ℕ)
    (h : ∀ i ∈ l, read i ≠ ReadResult.ok) :
    capture_go read retries l =
      (none, l.length,
       (l.filter (fun a =>
         decide (read a = ReadResult.exn) && decide (a ≠ retries))).length) := by
  induction l with
  | nil => simp [capture_go]
  | cons a rest ih =>
    have hrest : ∀ i ∈ rest, read i ≠ ReadResult.ok :=
      fun i hi => h i (List.mem_cons_of_mem a hi)
    cases hr : read a with
    | ok => exact absurd hr (h a (List.mem_cons_self a rest))
    | noData =>
      simp [capture_go, hr, ih hrest, List.filter_cons]
    | exn =>
      by_cases ha : a = retries
      · subst ha
        simp [capture_go, hr, ih hrest, List.filter_cons]
      · simp [capture_go, hr, ih hrest, List.filter_cons, ha]

/-- C8 amended: capture performs at most retries + 1 attempts and, when
every attempt fails, exactly retries + 1 attempts with no frame
returned; the fixed 0.1s pause is slept exactly after the attempts that
raised and were not the final one — an attempt whose read returns no
data without raising moves on with no pause. -/
theorem capture_retry_bounds :
    (∀ read retries, (capture_frame read retries).2.1 ≤ retries + 1) ∧
    (∀ read retries, (∀ i, read i ≠ ReadResult.ok) →
      capture_frame read retries =
        (none, retries + 1,
         ((List.range (retries + 1)).filter (fun a =>
           decide (read a = ReadResult.exn) && decide (a ≠ retries))).length)) := by
  constructor
  · intro read retries
    simpa using capture_go_attempts_le read retries (List.range (retries + 1))
  · intro read retries h
    simpa using capture_go_all_fail read retries (List.range (retries + 1))
      (fun i _ => h i)

/-- Witness for C8 amended: three raising attempts, two pauses. -/
theorem capture_retry_bounds_witness :
    capture_frame (fun _ => ReadResult.exn) 2 = (none, 3, 2) := by
  have h := capture_retry_bounds.2 (fun _ => ReadResult.exn) 2
    (fun i hi => ReadResult.noConfusion hi)
  exact h.trans (by decide)

/-- C8 counterexample: with every read returning no usable data without
raising, three consecutive attempts execute with zero pauses between
them, refuting that a short fixed pause is inserted between any two
consecutive attempts. -/
theorem capture_pause_counterexample :
    (capture_frame (fun _ => ReadResult.noData) 2).2.1 = 3 ∧
    (capture_frame (fun _ => ReadResult.noData) 2).2.2 = 0 := by decide

/-- A face tick always leaves the machine awake: the sleeping branch
wakes and every non-sleeping branch keeps the awake flag. -/
theorem tick_face_awake (ctx : Ctx) (s : PState) (now : ℚ) (n : String) :
    (tick_face ctx s now n).1.is_sleeping = false := by
  by_cases hs : s.is_sleeping
  · simp [tick_face, hs]
  · have hs' : s.is_sleeping = false := by simpa using hs
    simp only [tick_face, hs', Bool.false_eq_true, if_false]
    split_ifs <;> simp [hs']

/-- C2: the machine enters Asleep exactly when it was previously Awake,
the observation is NoFace, and now minus lastFaceSeenAt has reached the
sleep timeout; entering sleep clears the identity and the snapshot
published on that tick has null user and sleeping true; a NoFace tick
while already Asleep leaves the machine Asleep. -/
theorem sleep_entry_characterization (ctx : Ctx) (s : PState) (now : ℚ) (r : Recog) :
    (((tick ctx s now r).1.is_sleeping = true ∧ s.is_sleeping = false) ↔
      (r = Recog.noFace ∧ s.is_sleeping = false ∧
        now - s.last_face_seen ≥ SLEEP_TIMEOUT)) ∧
    ((tick ctx s now r).1.is_sleeping = true ∧ s.is_sleeping = false →
      (tick ctx s now r).1.current_user = none ∧
      (tick ctx s now r).2 =
        some (build_status ctx now none false true (now - s.last_face_seen))) ∧
    (s.is_sleeping = true ∧ r = Recog.noFace →
      (tick ctx s now r).1.is_sleeping = true) := by
  cases r with
  | face n =>
    have hf := tick_face_awake ctx s now n
    simp [tick, hf]
  | noFace =>
    cases hs : s.is_sleeping <;>
      by_cases ht : now - s.last_face_seen ≥ SLEEP_TIMEOUT <;>
        simp [tick, tick_noface, hs, ht, build_status]

/-- Witness for C2 at a concrete awake state whose face was last seen
400 seconds ago. -/
theorem sleep_entry_characterization_witness :
    (tick ctx0 tonyState 500 Recog.noFace).1.is_sleeping = true ∧
    (tick ctx0 tonyState 500 Recog.noFace).1.current_user = none := by
  have h := sleep_entry_characterization ctx0 tonyState 500 Recog.noFace
  have h1 : (tick ctx0 tonyState 500 Recog.noFace).1.is_sleeping = true ∧
      tonyState.is_sleeping = false :=
    h.1.mpr ⟨rfl, rfl, by norm_num [tonyState, SLEEP_TIMEOUT]⟩
  exact ⟨h1.1, (h.2.1 h1).1⟩

/-- C4: while Awake, at or beyond the wake-confirmation window, a
FaceDetected id tick updates the identity and publishes exactly when the
id differs from the current identity or more than the hold time has
passed since the last identity change; otherwise nothing is published
and the state only refreshes lastFaceSeenAt. -/
theorem identity_update_outside_window (ctx : Ctx) (s : PState) (now : ℚ)
    (name : String) (hA : s.is_sleeping = false)
    (hW : now - s.last_wake_time ≥ WAKE_CONFIRMATION_TIME) :
    ((tick ctx s now (Recog.face name)).2.isSome = true ↔
      (some name ≠ s.current_user ∨
        now - s.last_recognition_time > RECOGNITION_HOLD_TIME)) ∧
    ((some name ≠ s.current_user ∨
        now - s.last_recognition_time > RECOGNITION_HOLD_TIME) →
      (tick ctx s now (Recog.face name)).1 =
        { s with
          last_face_seen := now,
          current_user := some name,
          last_recognition_time := now } ∧
      (tick ctx s now (Recog.face name)).2 =
        some (build_status ctx now (some name) (name != "Guest") false 0)) ∧
    (¬(some name ≠ s.current_user ∨
        now - s.last_recognition_time > RECOGNITION_HOLD_TIME) →
      (tick ctx s now (Recog.face name)).1 = { s with last_face_seen := now } ∧
      (tick ctx s now (Recog.face name)).2 = none) := by
  have hW' : ¬(now - s.last_wake_time < WAKE_CONFIRMATION_TIME) := not_lt.mpr hW
  by_cases hc : some name ≠ s.current_user ∨
      now - s.last_recognition_time > RECOGNITION_HOLD_TIME <;>
    simp [tick, tick_face, hA, hW', hc, build_status]

/-- Witness for C4: a differing identity outside the window is applied
and published. -/
theorem identity_update_outside_window_witness :
    (tick ctx0 tonyState 103 (Recog.face "Sarah")).1.current_user = some "Sarah" ∧
    (tick ctx0 tonyState 103 (Recog.face "Sarah")).2.isSome = true := by
  have h := identity_update_outside_window ctx0 tonyState 103 "Sarah" rfl
    (by norm_num [tonyState, WAKE_CONFIRMATION_TIME])
  have hc : some "Sarah" ≠ tonyState.current_user ∨
      (103 : ℚ) - tonyState.last_recognition_time > RECOGNITION_HOLD_TIME :=
    Or.inl (by decide)
  obtain ⟨h1, h2⟩ := h.2.1 hc
  rw [h1, h2]
  exact ⟨rfl, rfl⟩

/-- A concrete awake state two seconds after its wake transition. -/
def justWokeState : PState :=
  { last_face_seen := 1000, current_user := some "Tony", is_sleeping := false,
    last_recognition_time := 1000, last_wake_time := 1000 }

/-- C9: on every tick while Awake and strictly inside the
wake-confirmation window a status snapshot is published, whatever the
observation and whether or not the identity changed; and a FaceDetected
id whose id differs from the current identity updates the identity. -/
theorem wake_window_always_publishes (ctx : Ctx) (s : PState) (now : ℚ)
    (hA : s.is_sleeping = false)
    (hW : now - s.last_wake_time < WAKE_CONFIRMATION_TIME) :
    (∀ r, (tick ctx s now r).2.isSome = true) ∧
    (∀ name, some name ≠ s.current_user →
      (tick ctx s now (Recog.face name)).1.current_user = some name) := by
  constructor
  · intro r
    cases r with
    | noFace =>
      simp only [tick, tick_noface]
      split_ifs <;> simp
    | face n => simp [tick, tick_face, hA, hW]
  · intro name hne
    simp [tick, tick_face, hA, hW, hne]

/-- Witness for C9 two seconds after a wake transition. -/
theorem wake_window_always_publishes_witness :
    (tick ctx0 justWokeState 1002 Recog.noFace).2.isSome = true ∧
    (tick ctx0 justWokeState 1002 (Recog.face "Sarah")).1.current_user
      = some "Sarah" := by
  have h := wake_window_always_publishes ctx0 justWokeState 1002 rfl
    (by norm_num [justWokeState, WAKE_CONFIRMATION_TIME])
  exact ⟨h.1 Recog.noFace, h.2 "Sarah" (by decide)⟩

/-- C3 counterexample: Awake with identity Tony set at time 100, hold
time 15; at time 103 (3 seconds later, outside the wake-confirmation
window) a guest observation arrives and the identity immediately flaps
to Guest and is published, instead of remaining Tony. -/
theorem hold_time_flap_counterexample :
    (tick ctx0 tonyState 103 (Recog.face "Guest")).1.current_user = some "Guest" ∧
    (tick ctx0 tonyState 103 (Recog.face "Guest")).2 =
      some (build_status ctx0 103 (some "Guest") false false 0) := by
  have hgt : ("Guest" : String) ≠ "Tony" := by decide
  constructor <;>
    norm_num [tick, tick_face, tonyState, WAKE_CONFIRMATION_TIME,
      RECOGNITION_HOLD_TIME, build_status, hgt]

/-- C3 amended: in the scenario (Awake, identity Tony, outside the
wake-confirmation window, 3 seconds after the identity change) a guest
observation immediately replaces the identity with Guest and publishes
it on that tick: the hold time only suppresses republication of an
unchanged identity and does not hold the previous identity against a
change. -/
theorem hold_time_flap_behavior (ctx : Ctx) (s : PState) (now : ℚ)
    (hA : s.is_sleeping = false)
    (hW : now - s.last_wake_time ≥ WAKE_CONFIRMATION_TIME)
    (hId : s.current_user = some "Tony")
    (hT : now - s.last_recognition_time = 3) :
    (tick ctx s now (Recog.face "Guest")).1.current_user = some "Guest" ∧
    (tick ctx s now (Recog.face "Guest")).2 =
      some (build_status ctx now (some "Guest") false false 0) := by
  have hW' : ¬(now - s.last_wake_time < WAKE_CONFIRMATION_TIME) := not_lt.mpr hW
  have hc : some "Guest" ≠ s.current_user := by simp [hId]
  constructor <;> simp [tick, tick_face, hA, hW', hc, build_status]

/-- Witness for C3 amended at the concrete scenario state. -/
theorem hold_time_flap_behavior_witness :
    (tick ctx0 tonyState 103 (Recog.face "Guest")).1.current_user
      = some "Guest" :=
  (hold_time_flap_behavior ctx0 tonyState 103 rfl
    (by norm_num [tonyState, WAKE_CONFIRMATION_TIME]) rfl
    (by norm_num [tonyState])).1

/-- The invariant claimed of every published snapshot: the user field is
null exactly when sleeping, and isKnown exactly when the user is a
string different from Guest. -/
def statusInv (st : Status) : Prop :=
  (st.user = none ↔ st.sleeping = true) ∧
  (st.isKnown = true ↔ (st.user ≠ none ∧ st.user ≠ some "Guest"))

/-- Every snapshot published by a face tick has this one shape. -/
theorem tick_face_pub (ctx : Ctx) (s : PState) (now : ℚ) (n : String) :
    (tick_face ctx s now n).2 = none ∨
    (tick_face ctx s now n).2 =
      some (build_status ctx now (some n) (n != "Guest") false 0) := by
  simp only [tick_face]
  split_ifs <;> simp

/-- A no-face tick publishes either the sleeping snapshot or, while
still awake, the awake diagnostic snapshot derived from the unchanged
identity. -/
theorem tick_noface_pub (ctx : Ctx) (s : PState) (now : ℚ) :
    (tick_noface ctx s now).2 =
      some (build_status ctx now none false true (now - s.last_face_seen)) ∨
    ((tick_noface ctx s now).2 =
      some (build_status ctx now (some (pyOrGuest s.current_user))
        (s.current_user.isSome && (s.current_user != some "Guest")) false
        (now - s.last_face_seen)) ∧ s.is_sleeping = false) := by
  simp only [tick_noface]
  by_cases hcond : now - s.last_face_seen ≥ SLEEP_TIMEOUT ∧ s.is_sleeping = false
  · left
    simp [hcond]
  · by_cases hs : s.is_sleeping
    · left
      simp [hcond, hs]
    · have hs' : s.is_sleeping = false := by simpa using hs
      have ht : ¬(SLEEP_TIMEOUT ≤ now - s.last_face_seen) :=
        fun hge => hcond ⟨hge, hs'⟩
      right
      exact ⟨by simp [ht, hs'], hs'⟩

/-- The face-tick snapshot satisfies the invariant for every name. -/
theorem statusInv_face_snapshot (ctx : Ctx) (now : ℚ) (n : String) :
    statusInv (build_status ctx now (some n) (n != "Guest") false 0) := by
  constructor
  · simp [build_status]
  · simp [build_status, bne_iff_ne]

/-- The sleeping snapshot satisfies the invariant. -/
theorem statusInv_sleep_snapshot (ctx : Ctx) (now tsf : ℚ) :
    statusInv (build_status ctx now none false true tsf) := by
  simp [statusInv, build_status]

/-- The awake no-face snapshot satisfies the invariant provided the
stored identity is not the empty string. -/
theorem statusInv_awake_snapshot (ctx : Ctx) (now tsf : ℚ) (cu : Option String)
    (hne : cu ≠ some "") :
    statusInv (build_status ctx now (some (pyOrGuest cu))
      (cu.isSome && (cu != some "Guest")) false tsf) := by
  cases cu with
  | none => simp [statusInv, build_status, pyOrGuest]
  | some u =>
    have hu : u ≠ "" := fun h => hne (by rw [h])
    simp [statusInv, build_status, pyOrGuest, hu, bne_iff_ne]

/-- C10 counterexample: starting from the initial loop state, a face
whose profile name is the empty string (a profile file named exactly
-id.png) is detected at time 1001; on the next tick (time 1002, no
face, still awake) the published snapshot carries user Guest together
with isKnown true, because the Python current_user-or-Guest expression
treats the empty string as falsy while the isKnown test does not. -/
theorem status_invariant_counterexample :
    (tick ctx0 (tick ctx0 (init_state 1000) 1001 (Recog.face "")).1 1002
        Recog.noFace).2 =
      some (build_status ctx0 1002 (some "Guest") true false 1) ∧
    ¬ statusInv (build_status ctx0 1002 (some "Guest") true false 1) := by
  have hg : ("" : String) ≠ "Guest" := by decide
  constructor
  · norm_num [tick, tick_face, tick_noface, init_state, WAKE_CONFIRMATION_TIME,
      RECOGNITION_HOLD_TIME, SLEEP_TIMEOUT, pyOrGuest, build_status, hg]
  · simp [statusInv, build_status]

/-- C10 amended: provided the stored identity is not the empty string
(which only a profile file named exactly -id.png can produce), the
initial snapshot and every snapshot the tick publishes satisfy the
invariant: user is null exactly when sleeping, and isKnown exactly when
user is a string other than Guest. -/
theorem status_invariant_amended (ctx : Ctx) (s : PState) (now : ℚ) (r : Recog)
    (hne : s.current_user ≠ some "") :
    statusInv (initial_status ctx now) ∧
    ∀ st, (tick ctx s now r).2 = some st → statusInv st := by
  refine ⟨by simp [statusInv, initial_status, build_status], fun st hst => ?_⟩
  cases r with
  | face n =>
    rcases tick_face_pub ctx s now n with h | h
    · rw [show tick ctx s now (Recog.face n) = tick_face ctx s now n from rfl,
        h] at hst
      exact absurd hst (by simp)
    · rw [show tick ctx s now (Recog.face n) = tick_face ctx s now n from rfl,
        h] at hst
      exact (Option.some_inj.mp hst) ▸ statusInv_face_snapshot ctx now n
  | noFace =>
    rcases tick_noface_pub ctx s now with h | ⟨h, -⟩
    · rw [show tick ctx s now Recog.noFace = tick_noface ctx s now from rfl,
        h] at hst
      exact (Option.some_inj.mp hst) ▸ statusInv_sleep_snapshot ctx now _
    · rw [show tick ctx s now Recog.noFace = tick_noface ctx s now from rfl,
        h] at hst
      exact (Option.some_inj.mp hst) ▸
        statusInv_awake_snapshot ctx now _ s.current_user hne

/-- Witness for C10 amended: the initial snapshot, and an awake no-face
publish from a state holding Tony, satisfy the invariant. -/
theorem status_invariant_amended_witness :
    statusInv (initial_status ctx0 1000) :=
  (status_invariant_amended ctx0 tonyState 101 Recog.noFace (by decide)).1

end MMMFR
